import Mathlib

/-!
Verification of the pesiskulma field-geometry core: a shallow embedding of
the pure computational layer of the repository (geometry calculations,
coordinate transforms, snapping, hit-testing, and the state store), with
theorems settling the specification's claims about it.

JavaScript numbers are modelled as real numbers; JS division by zero
(yielding `Infinity`/`NaN`) is modelled by Lean's total division (`x / 0 = 0`)
and is noted where it can occur.  All definitions are transcribed from the
source modules (`geometry.js`, `rendering.js`, `interactions.js`, `state.js`).
-/

namespace Pesiskulma

noncomputable section

/-- Point in 2D space `{x, y}` (geometry.js `Point` typedef). -/
structure Point where
  x : ℝ
  y : ℝ

/-- Line segment `{start, end}` (geometry.js `LineSegment` typedef).
The `end` field is named `endp` because `end` is a Lean keyword. -/
structure LineSegment where
  start : Point
  endp : Point

/-- Line segment carrying a precomputed `length` (the shape returned by
`trimmedSegment`). -/
structure TrimmedSegment where
  start : Point
  endp : Point
  length : ℝ

/-- JS numeric truthiness defaulting `v || d`: `0` is falsy, every other
(finite, non-NaN) number is truthy.  Used for the optional profile fields
(`baseLineLength || 5.0`, `homePathFirstLine || 16`, ...). -/
def orDefault (v d : ℝ) : ℝ :=
  if v = 0 then d else v

/-- Source `distanceBetween(a, b) = Math.hypot(a.x - b.x, a.y - b.y)` (geometry.js). -/
def distanceBetween (a b : Point) : ℝ :=
  Real.sqrt ((a.x - b.x) ^ 2 + (a.y - b.y) ^ 2)

/-- Source `unitVector(from, to)` (geometry.js): the normalized direction from one
point to another, or the zero vector when the points coincide.  The source
parameter `from` is a Lean keyword, hence `fromP` / `toP`. -/
def unitVector (fromP toP : Point) : Point :=
  let dx := toP.x - fromP.x
  let dy := toP.y - fromP.y
  let length := Real.sqrt (dx ^ 2 + dy ^ 2)
  if length = 0 then ⟨0, 0⟩ else ⟨dx / length, dy / length⟩

/-- Source `trimmedSegment(fromCenter, toCenter, fromTrim, toTrim)` (geometry.js):
shift each endpoint inward along the connecting unit vector and record the
resulting length. -/
def trimmedSegment (fromCenter toCenter : Point) (fromTrim toTrim : ℝ) :
    TrimmedSegment :=
  let dir := unitVector fromCenter toCenter
  let start : Point :=
    ⟨fromCenter.x + dir.x * fromTrim, fromCenter.y + dir.y * fromTrim⟩
  let endp : Point :=
    ⟨toCenter.x - dir.x * toTrim, toCenter.y - dir.y * toTrim⟩
  ⟨start, endp, distanceBetween start endp⟩

/-- Source `direction(angleDeg)` (geometry.js): angle in degrees to a direction
vector `(sin rad, cos rad)`. -/
def direction (angleDeg : ℝ) : Point :=
  let rad := angleDeg * Real.pi / 180
  ⟨Real.sin rad, Real.cos rad⟩

/-- Source `intersectionWithHomeLine(dir, sectorOriginY, homeLineY)` (geometry.js):
intersection of a sector ray with the horizontal home line.  When
`dir.y = 0` the JS source divides by zero (`t = Infinity`); the real model
returns `t = 0` there. -/
def intersectionWithHomeLine (dir : Point) (sectorOriginY homeLineY : ℝ) :
    Point :=
  let t := (homeLineY - sectorOriginY) / dir.y
  ⟨dir.x * t, homeLineY⟩

/-- Source `nearestPointOnLine(point, lineStart, lineEnd)` (geometry.js): clamped
projection of a point onto a segment; returns `lineStart` for a degenerate
zero-length segment. -/
def nearestPointOnLine (point lineStart lineEnd : Point) : Point :=
  let dx := lineEnd.x - lineStart.x
  let dy := lineEnd.y - lineStart.y
  let lengthSq := dx * dx + dy * dy
  if lengthSq = 0 then lineStart
  else
    let t0 := ((point.x - lineStart.x) * dx + (point.y - lineStart.y) * dy) /
      lengthSq
    let t := max 0 (min 1 t0)
    ⟨lineStart.x + t * dx, lineStart.y + t * dy⟩

/-- Source `pointToLineDistance(px, py, x1, y1, x2, y2)` (geometry.js): distance
from a point to the clamped projection onto a segment. -/
def pointToLineDistance (px py x1 y1 x2 y2 : ℝ) : ℝ :=
  let dx := x2 - x1
  let dy := y2 - y1
  let lengthSq := dx * dx + dy * dy
  if lengthSq = 0 then Real.sqrt ((px - x1) ^ 2 + (py - y1) ^ 2)
  else
    let t0 := ((px - x1) * dx + (py - y1) * dy) / lengthSq
    let t := max 0 (min 1 t0)
    let nearestX := x1 + t * dx
    let nearestY := y1 + t * dy
    Real.sqrt ((px - nearestX) ^ 2 + (py - nearestY) ^ 2)

/-- Source `isPointInRect(px, py, x, y, width, height)` (geometry.js): membership in
an axis-aligned rectangle given by its center and size (bounds inclusive). -/
def isPointInRect (px py x y width height : ℝ) : Prop :=
  px ≥ x - width / 2 ∧ px ≤ x + width / 2 ∧
    py ≥ y - height / 2 ∧ py ≤ y + height / 2

/-- Source `toCanvas(point, origin, scale)` (rendering.js): field coordinates
(meters, Y-up) to canvas coordinates (pixels, Y-down). -/
def toCanvas (point origin : Point) (scale : ℝ) : Point :=
  ⟨origin.x + point.x * scale, origin.y - point.y * scale⟩

/-- Source `fromCanvas(canvasPoint, origin, scale)` (rendering.js): canvas
coordinates back to field coordinates. -/
def fromCanvas (canvasPoint origin : Point) (scale : ℝ) : Point :=
  ⟨(canvasPoint.x - origin.x) / scale, (origin.y - canvasPoint.y) / scale⟩

/-- Source `fromCanvasWithZoom(canvasPoint, origin, scale, zoomLevel, panX, panY)`
(rendering.js): first undo the pan translation and the zoom scaling, then
apply the ordinary inverse transform. -/
def fromCanvasWithZoom (canvasPoint origin : Point)
    (scale zoomLevel panX panY : ℝ) : Point :=
  let transformedX := (canvasPoint.x - panX) / zoomLevel
  let transformedY := (canvasPoint.y - panY) / zoomLevel
  ⟨(transformedX - origin.x) / scale, (origin.y - transformedY) / scale⟩

/-- Modelled from the spec and the render loop (`ctx.translate(panX, panY);
ctx.scale(zoomLevel, zoomLevel)` around all field drawing): the forward
zoom/pan pipeline maps a field point to the screen pixel
`zoom * toCanvas(p) + pan`. -/
def toCanvasWithZoomApplied (point origin : Point)
    (scale zoomLevel panX panY : ℝ) : Point :=
  let c := toCanvas point origin scale
  ⟨zoomLevel * c.x + panX, zoomLevel * c.y + panY⟩

/-- Home-plate parameters of a field profile (state.js `FieldProfile`). -/
structure HomePlateConfig where
  radius : ℝ
  centerToHomeLine : ℝ
  lineHalfWidth : ℝ

/-- Batting-sector parameters: origin offset and the two ray angles. -/
structure BattingSectorConfig where
  originOffsetY : ℝ
  leftAngleDeg : ℝ
  rightAngleDeg : ℝ

/-- Diagonal (sector boundary) line parameters. -/
structure DiagonalLinesConfig where
  lengthFromHomeLine : ℝ

/-- Back-boundary parameters. -/
structure BackBoundaryConfig where
  distanceFromHomeLine : ℝ
  width : ℝ

/-- Arc radius pair (front arc / home arcs). -/
structure ArcConfig where
  innerRadius : ℝ
  outerRadius : ℝ

/-- First-base positioning offset. -/
structure FirstBaseOffsetConfig where
  distanceFromHomeLine : ℝ

/-- Second-base positioning offset. -/
structure SecondBaseOffsetConfig where
  distanceFromRightAngle : ℝ

/-- Third-base positioning offset. -/
structure ThirdBaseOffsetConfig where
  distanceFromLeftAngle : ℝ

/-- Field profile: the complete parametric description of one field variant
(state.js `FieldProfile` typedef). -/
structure FieldProfile where
  id : String
  homePlate : HomePlateConfig
  battingSector : BattingSectorConfig
  diagonalLines : DiagonalLinesConfig
  backBoundary : BackBoundaryConfig
  frontArc : ArcConfig
  homeArcs : ArcConfig
  firstBaseCanvasOffset : FirstBaseOffsetConfig
  secondBaseCanvasOffset : SecondBaseOffsetConfig
  thirdBaseCanvasOffset : ThirdBaseOffsetConfig
  baseRadius : ℝ
  baseLineLength : ℝ
  homePathFirstLine : ℝ
  homePathEndOffset : ℝ

/-- Editable points `{homePathStart, homePathMid, homePathEnd}`, each
`Point | null` (state.js `EditablePoints` typedef). -/
structure EditablePoints where
  homePathStart : Option Point
  homePathMid : Option Point
  homePathEnd : Option Point

/-- Fully materialized home-path control points (the shape of
`initializedEditablePoints` inside `calculateGeometry`). -/
structure HomePathPoints where
  homePathStart : Point
  homePathMid : Point
  homePathEnd : Point

/-- Snap target tagged union (state.js / geometry.js):
`{type: "point"} | {type: "line"} | {type: "arc"}`. -/
inductive SnapTarget where
  | point (point : Point)
  | line (line : LineSegment)
  | arc (center : Point) (radius : ℝ)

/-- Named scalar measurements assembled by `calculateGeometry`. -/
structure Measurements where
  first : ℝ
  second : ℝ
  third : ℝ
  back : ℝ
  diagonal : ℝ
  width : ℝ

/-- Derived geometry returned by `calculateGeometry` (geometry.js).  The
`frontArc` start/end angles (`atan2` values consumed only by the canvas
renderer) are not transcribed; no claim concerns them. -/
structure Geometry where
  homeLineSegment : LineSegment
  homeLeft : Point
  homeRight : Point
  diagonalLeftEnd : Point
  diagonalRightEnd : Point
  leftVerticalEnd : Point
  rightVerticalEnd : Point
  firstBaseCenter : Point
  secondBaseCenter : Point
  thirdBaseCenter : Point
  secondBaseLine : LineSegment
  thirdBaseLine : LineSegment
  originalHomePathFirstLine : LineSegment
  originalHomePathSecondLine : LineSegment
  homePathFirstLine : LineSegment
  homePathSecondLine : LineSegment
  firstToSecondExtension : LineSegment
  firstToSecond : TrimmedSegment
  secondToThird : TrimmedSegment
  snapTargets : List SnapTarget
  measurements : Measurements
  initializedEditablePoints : HomePathPoints

/-- Source `calculateGeometry(fieldProfile, editablePoints, scale = 1)`
(geometry.js): the complete field geometry derived from a profile and the
user-editable home-path points.  The `scale` parameter is accepted (default
`1` in the source) but, as in the source, never read.  In the
`firstToSecondExtension` computation the source divides by the cross product
with no parallel guard (JS would produce `Infinity`/`NaN`); the real model
yields `t1 = 0` there. -/
def calculateGeometry (fieldProfile : FieldProfile)
    (editablePoints : EditablePoints) (_scale : ℝ := 1) : Geometry :=
  let sectorOriginY := fieldProfile.battingSector.originOffsetY
  let leftDir := direction fieldProfile.battingSector.leftAngleDeg
  let rightDir := direction fieldProfile.battingSector.rightAngleDeg
  let homeLineY := fieldProfile.homePlate.centerToHomeLine
  let homeLeft := intersectionWithHomeLine leftDir sectorOriginY homeLineY
  let homeRight := intersectionWithHomeLine rightDir sectorOriginY homeLineY
  let homeLineSegment : LineSegment :=
    ⟨⟨-(orDefault fieldProfile.homePlate.lineHalfWidth 6), homeLineY⟩,
      ⟨orDefault fieldProfile.homePlate.lineHalfWidth 6, homeLineY⟩⟩
  let diagonalLength := fieldProfile.diagonalLines.lengthFromHomeLine
  let diagonalY := homeLeft.y + diagonalLength
  let diagonalLeftEnd : Point :=
    ⟨homeLeft.x + diagonalLength * leftDir.x / leftDir.y, diagonalY⟩
  let diagonalRightEnd : Point :=
    ⟨homeRight.x + diagonalLength * rightDir.x / rightDir.y, diagonalY⟩
  let backY := homeLineY + fieldProfile.backBoundary.distanceFromHomeLine
  let leftVerticalEnd : Point := ⟨diagonalLeftEnd.x, backY⟩
  let rightVerticalEnd : Point := ⟨diagonalRightEnd.x, backY⟩
  let firstBaseCenter : Point :=
    ⟨homeLeft.x +
        leftDir.x * fieldProfile.firstBaseCanvasOffset.distanceFromHomeLine,
      homeLeft.y +
        leftDir.y * fieldProfile.firstBaseCanvasOffset.distanceFromHomeLine⟩
  let secondBaseCenter : Point :=
    ⟨diagonalRightEnd.x,
      diagonalRightEnd.y +
        fieldProfile.secondBaseCanvasOffset.distanceFromRightAngle⟩
  let thirdBaseCenter : Point :=
    ⟨diagonalLeftEnd.x,
      diagonalLeftEnd.y +
        fieldProfile.thirdBaseCanvasOffset.distanceFromLeftAngle⟩
  let baseLineLength := orDefault fieldProfile.baseLineLength 5.0
  let baseRadius := fieldProfile.baseRadius
  let lineHalfWidth := (0.2 : ℝ)
  let secondBaseLineY := secondBaseCenter.y - baseRadius + lineHalfWidth
  let thirdBaseLineY := thirdBaseCenter.y - baseRadius + lineHalfWidth
  let secondBaseLine : LineSegment :=
    ⟨⟨secondBaseCenter.x, secondBaseLineY⟩,
      ⟨secondBaseCenter.x + baseLineLength, secondBaseLineY⟩⟩
  let thirdBaseLine : LineSegment :=
    ⟨⟨thirdBaseCenter.x, thirdBaseLineY⟩,
      ⟨thirdBaseCenter.x - baseLineLength, thirdBaseLineY⟩⟩
  let originalHomePathFirstLine : LineSegment :=
    ⟨⟨diagonalLeftEnd.x, thirdBaseLineY⟩,
      ⟨diagonalLeftEnd.x,
        thirdBaseLineY - orDefault fieldProfile.homePathFirstLine 16⟩⟩
  let originalHomePathSecondLine : LineSegment :=
    ⟨originalHomePathFirstLine.endp,
      ⟨-(orDefault fieldProfile.homePathEndOffset 6), homeLineY⟩⟩
  let initializedEditablePoints : HomePathPoints :=
    ⟨(editablePoints.homePathStart).getD originalHomePathFirstLine.start,
      (editablePoints.homePathMid).getD originalHomePathFirstLine.endp,
      (editablePoints.homePathEnd).getD originalHomePathSecondLine.endp⟩
  let homePathFirstLine : LineSegment :=
    ⟨initializedEditablePoints.homePathStart,
      initializedEditablePoints.homePathMid⟩
  let homePathSecondLine : LineSegment :=
    ⟨initializedEditablePoints.homePathMid,
      initializedEditablePoints.homePathEnd⟩
  let firstToSecondDir := unitVector firstBaseCenter secondBaseCenter
  let homePathDir :=
    unitVector originalHomePathSecondLine.start originalHomePathSecondLine.endp
  let dx := originalHomePathSecondLine.start.x - firstBaseCenter.x
  let dy := originalHomePathSecondLine.start.y - firstBaseCenter.y
  let cross := firstToSecondDir.x * homePathDir.y -
    firstToSecondDir.y * homePathDir.x
  let t1 := (dx * homePathDir.y - dy * homePathDir.x) / cross
  let intersectionWithHomePath : Point :=
    ⟨firstBaseCenter.x + t1 * firstToSecondDir.x,
      firstBaseCenter.y + t1 * firstToSecondDir.y⟩
  let firstToSecondExtension : LineSegment :=
    ⟨intersectionWithHomePath, firstBaseCenter⟩
  let firstInterval := fieldProfile.firstBaseCanvasOffset.distanceFromHomeLine
  let firstToSecond :=
    trimmedSegment firstBaseCenter secondBaseCenter baseRadius baseRadius
  let secondToThird :=
    trimmedSegment secondBaseCenter thirdBaseCenter baseRadius baseRadius
  let snapTargets : List SnapTarget :=
    [SnapTarget.line thirdBaseLine,
      SnapTarget.point thirdBaseCenter,
      SnapTarget.arc thirdBaseCenter baseRadius,
      SnapTarget.line homeLineSegment,
      SnapTarget.line ⟨homeLeft, diagonalLeftEnd⟩,
      SnapTarget.point ⟨0, 0⟩,
      SnapTarget.line originalHomePathFirstLine,
      SnapTarget.line originalHomePathSecondLine]
  let measurements : Measurements :=
    ⟨firstInterval, firstToSecond.length, secondToThird.length,
      fieldProfile.backBoundary.distanceFromHomeLine,
      distanceBetween homePathFirstLine.start homePathFirstLine.endp +
        distanceBetween homePathSecondLine.start homePathSecondLine.endp,
      fieldProfile.backBoundary.width⟩
  ⟨homeLineSegment, homeLeft, homeRight, diagonalLeftEnd, diagonalRightEnd,
    leftVerticalEnd, rightVerticalEnd, firstBaseCenter, secondBaseCenter,
    thirdBaseCenter, secondBaseLine, thirdBaseLine,
    originalHomePathFirstLine, originalHomePathSecondLine,
    homePathFirstLine, homePathSecondLine, firstToSecondExtension,
    firstToSecond, secondToThird, snapTargets, measurements,
    initializedEditablePoints⟩

/-- Built-in men's field profile (state.js `fieldProfileMen`). -/
def fieldProfileMen : FieldProfile :=
  ⟨"Miehet", ⟨0.3, 1.3, 7.0⟩, ⟨-0.569, -32.0, 32.0⟩, ⟨32.0⟩, ⟨96.0, 42.0⟩,
    ⟨2.5, 2.7⟩, ⟨5.0, 7.0⟩, ⟨20.0⟩, ⟨6.5⟩, ⟨6.5⟩, 3.0, 7.0, 15.5, 6.0⟩

/-- Built-in women's field profile (state.js `fieldProfileWomen`). -/
def fieldProfileWomen : FieldProfile :=
  ⟨"Naiset", ⟨0.3, 1.3, 7.0⟩, ⟨-0.569, -32.0, 32.0⟩, ⟨27.162⟩, ⟨82.0, 36.0⟩,
    ⟨2.5, 2.7⟩, ⟨5.0, 7.0⟩, ⟨17.5⟩, ⟨7.339⟩, ⟨7.339⟩, 2.5, 7.0, 16.0, 6.0⟩

/-- Source `SNAP_THRESHOLD = 0.4` meters (state.js), the default snap threshold. -/
def SNAP_THRESHOLD : ℝ := 0.4

/-- Per-target snap candidate of `findNearestSnap` (interactions.js): the
candidate snap point together with its distance, or `none` when the loop
body leaves `snapPoint = null` (an `arc` target whose center coincides with
the input point). -/
def snapCandidate (point : Point) : SnapTarget → Option (Point × ℝ)
  | SnapTarget.point p => some (p, distanceBetween point p)
  | SnapTarget.line seg =>
      let sp := nearestPointOnLine point seg.start seg.endp
      some (sp, distanceBetween point sp)
  | SnapTarget.arc center radius =>
      let dx := point.x - center.x
      let dy := point.y - center.y
      let dist := Real.sqrt (dx ^ 2 + dy ^ 2)
      if dist > 0 then
        some (⟨center.x + dx / dist * radius, center.y + dy / dist * radius⟩,
          |dist - radius|)
      else none

/-- Per-target effective threshold of `findNearestSnap` (interactions.js):
`target.type === "line" ? 2.0 : threshold`. -/
def effectiveThreshold (threshold : ℝ) : SnapTarget → ℝ
  | SnapTarget.line _ => 2.0
  | _ => threshold

/-- Loop of `findNearestSnap` over the target list, carrying the running
`minDistance` and `nearestPoint` accumulators of the source's `for` loop. -/
def findNearestSnapLoop (point : Point) (threshold : ℝ) :
    List SnapTarget → ℝ → Option Point → Option Point
  | [], _, nearestPoint => nearestPoint
  | target :: rest, minDistance, nearestPoint =>
      match snapCandidate point target with
      | none => findNearestSnapLoop point threshold rest minDistance nearestPoint
      | some (snapPoint, dist) =>
          if dist < effectiveThreshold threshold target ∧ dist < minDistance then
            findNearestSnapLoop point threshold rest dist (some snapPoint)
          else
            findNearestSnapLoop point threshold rest minDistance nearestPoint

/-- Source `findNearestSnap(point, snapTargets, threshold = SNAP_THRESHOLD)`
(interactions.js): nearest snap point among the targets, starting the
running minimum at `threshold`. -/
def findNearestSnap (point : Point) (snapTargets : List SnapTarget)
    (threshold : ℝ := SNAP_THRESHOLD) : Option Point :=
  findNearestSnapLoop point threshold snapTargets threshold none

/-- Acceptance guard of the `findNearestSnap` loop body against a running
minimum `m`: the target produces a snap candidate whose distance is below
both the target's effective threshold and `m`
(`snapPoint && distance < effectiveThreshold && distance < minDistance`). -/
def acceptedBelow (point : Point) (threshold m : ℝ) (t : SnapTarget) : Prop :=
  ∃ sp d, snapCandidate point t = some (sp, d) ∧
    d < effectiveThreshold threshold t ∧ d < m

/-- Synthetic field profile with vertical sector rays (both angles `0`), on
which `calculateGeometry` evaluates in closed form. -/
def testProfile : FieldProfile :=
  ⟨"Test", ⟨0.3, 1, 1⟩, ⟨0, 0, 0⟩, ⟨10⟩, ⟨20, 10⟩, ⟨1, 2⟩, ⟨1, 2⟩, ⟨5⟩,
    ⟨2⟩, ⟨2⟩, 1, 5, 4, 3⟩

/-- Measurement hit area pushed by `drawDimensionLine` (rendering.js): a line
segment in canvas coordinates plus a centered label rectangle.  The `title`
and `tooltipData` payloads are irrelevant to hit-testing and not modelled. -/
structure HitArea where
  startX : ℝ
  startY : ℝ
  endX : ℝ
  endY : ℝ
  labelX : ℝ
  labelY : ℝ
  labelWidth : ℝ
  labelHeight : ℝ

/-- Hit predicate of `findHoveredMeasurement` (interactions.js): the cursor
is within `hitThreshold` of the area's line, or inside its label box. -/
def hitsArea (canvasPos : Point) (hitThreshold : ℝ) (area : HitArea) : Prop :=
  pointToLineDistance canvasPos.x canvasPos.y area.startX area.startY
      area.endX area.endY < hitThreshold ∨
    isPointInRect canvasPos.x canvasPos.y area.labelX area.labelY
      area.labelWidth area.labelHeight

instance (canvasPos : Point) (hitThreshold : ℝ) (area : HitArea) :
    Decidable (hitsArea canvasPos hitThreshold area) := by
  unfold hitsArea isPointInRect
  infer_instance

/-- Source `findHoveredMeasurement(canvasPos, measurementHitAreas, hitThreshold = 10)`
(interactions.js): first hit area in list order, else `null`. -/
def findHoveredMeasurement (canvasPos : Point) :
    List HitArea → (hitThreshold : ℝ := 10) → Option HitArea
  | [], _ => none
  | area :: rest, hitThreshold =>
      if hitsArea canvasPos hitThreshold area then some area
      else findHoveredMeasurement canvasPos rest hitThreshold

/-- Editable-point slot names accepted by `updateEditablePoint` (the
documented domain of its `pointName` string parameter). -/
inductive PointName where
  | homePathStart
  | homePathMid
  | homePathEnd
deriving DecidableEq

/-- Slot selector for `EditablePoints`. -/
def getPoint : PointName → EditablePoints → Option Point
  | PointName.homePathStart, eps => eps.homePathStart
  | PointName.homePathMid, eps => eps.homePathMid
  | PointName.homePathEnd, eps => eps.homePathEnd

/-- Application state (state.js `createInitialState` shape). -/
structure AppState where
  fieldProfile : FieldProfile
  showMeasurementsOnField : Bool
  editMode : Bool
  draggingHandle : Option PointName
  editablePoints : EditablePoints
  snapTargets : List SnapTarget
  activeSnapPoint : Option Point
  measurementHitAreas : List HitArea
  zoomLevel : ℝ
  minZoom : ℝ
  maxZoom : ℝ
  panX : ℝ
  panY : ℝ
  isPanning : Bool

/-- Source `createInitialState()` (state.js). -/
def createInitialState : AppState :=
  ⟨fieldProfileWomen, true, true, none, ⟨none, none, none⟩, [], none, [],
    1.0, 0.5, 3.0, 0, 0, false⟩

/-- Source `StateStore.resetEditablePoints()` (state.js) as a pure state
transition: `setState` merges the update into the previous state. -/
def resetEditablePoints (s : AppState) : AppState :=
  { s with editablePoints := ⟨none, none, none⟩ }

/-- Source `StateStore.updateEditablePoint(pointName, newPoint)` (state.js): spread
the previous `editablePoints` and overwrite the named slot with a copy of
`newPoint`. -/
def updateEditablePoint (pointName : PointName) (newPoint : Point)
    (s : AppState) : AppState :=
  { s with
    editablePoints :=
      match pointName with
      | PointName.homePathStart => { s.editablePoints with homePathStart := some newPoint }
      | PointName.homePathMid => { s.editablePoints with homePathMid := some newPoint }
      | PointName.homePathEnd => { s.editablePoints with homePathEnd := some newPoint } }

/-- Source `StateStore.setFieldProfile(profile)` (state.js): install the profile
and reset all three editable points to `null`. -/
def setFieldProfile (profile : FieldProfile) (s : AppState) : AppState :=
  { s with fieldProfile := profile, editablePoints := ⟨none, none, none⟩ }

attribute [ext] Point

/-- C1: for every field point `p`, canvas point `q`, origin and positive
scale, `fromCanvas` inverts `toCanvas` and `toCanvas` inverts `fromCanvas`.
In the real model the round trip is exact, hence within the claimed `1e-9`
floating-point tolerance. -/
theorem c1_canvas_round_trip (p q origin : Point) (scale : ℝ)
    (hscale : 0 < scale) :
    fromCanvas (toCanvas p origin scale) origin scale = p ∧
      toCanvas (fromCanvas q origin scale) origin scale = q := by
  have hs : scale ≠ 0 := ne_of_gt hscale
  constructor <;> (ext <;> simp [toCanvas, fromCanvas] <;> field_simp)

/-- Witness for C1 at `p = (1, 2)`, `q = (5, 6)`, `origin = (3, 4)`,
`scale = 2`. -/
theorem c1_canvas_round_trip_witness :
    fromCanvas (toCanvas ⟨1, 2⟩ ⟨3, 4⟩ 2) ⟨3, 4⟩ 2 = (⟨1, 2⟩ : Point) ∧
      toCanvas (fromCanvas ⟨5, 6⟩ ⟨3, 4⟩ 2) ⟨3, 4⟩ 2 = (⟨5, 6⟩ : Point) :=
  c1_canvas_round_trip ⟨1, 2⟩ ⟨5, 6⟩ ⟨3, 4⟩ 2 (by norm_num)

/-- C3: applying the forward zoom/pan pipeline
(`q = zoom * toCanvas(p) + pan`) and then `fromCanvasWithZoom` recovers the
field point exactly, for positive scale and zoom in `[0.5, 3.0]`. -/
theorem c3_zoom_pan_round_trip (p origin : Point)
    (scale zoomLevel panX panY : ℝ) (hscale : 0 < scale)
    (hz1 : 0.5 ≤ zoomLevel) (_hz2 : zoomLevel ≤ 3.0) :
    fromCanvasWithZoom
        (toCanvasWithZoomApplied p origin scale zoomLevel panX panY)
        origin scale zoomLevel panX panY = p := by
  have hs : scale ≠ 0 := ne_of_gt hscale
  have hz : zoomLevel ≠ 0 := by intro h; rw [h] at hz1; norm_num at hz1
  ext <;> simp [fromCanvasWithZoom, toCanvasWithZoomApplied, toCanvas] <;>
    field_simp

/-- Witness for C3 at `p = (2, 3)`, `origin = (1, 1)`, `scale = 4`,
`zoom = 1.5`, `pan = (7, -9)`. -/
theorem c3_zoom_pan_round_trip_witness :
    fromCanvasWithZoom (toCanvasWithZoomApplied ⟨2, 3⟩ ⟨1, 1⟩ 4 1.5 7 (-9))
        ⟨1, 1⟩ 4 1.5 7 (-9) = (⟨2, 3⟩ : Point) :=
  c3_zoom_pan_round_trip ⟨2, 3⟩ ⟨1, 1⟩ 4 1.5 7 (-9) (by norm_num)
    (by norm_num) (by norm_num)

/-- C8: for the women's profile (`diagonalLines.lengthFromHomeLine = 27.162`)
and any editable points and scale, `diagonalLeftEnd.y` equals
`homeLeft.y + 27.162` exactly: the source computes it as that very sum. -/
theorem c8_women_diagonal_left_end (editablePoints : EditablePoints)
    (scale : ℝ) :
    (calculateGeometry fieldProfileWomen editablePoints scale).diagonalLeftEnd.y =
      (calculateGeometry fieldProfileWomen editablePoints scale).homeLeft.y +
        27.162 := rfl

/-- C9: `setFieldProfile` and `resetEditablePoints` null all three editable
points; `updateEditablePoint` sets exactly the named slot to the new point
and leaves the other slots and the remaining state fields unchanged. -/
theorem c9_state_store_updates (s : AppState) (profile : FieldProfile)
    (name other : PointName) (newPoint : Point) :
    (setFieldProfile profile s).editablePoints =
        ⟨none, none, none⟩ ∧
      (setFieldProfile profile s).fieldProfile = profile ∧
      (resetEditablePoints s).editablePoints = ⟨none, none, none⟩ ∧
      getPoint name (updateEditablePoint name newPoint s).editablePoints =
        some newPoint ∧
      (other ≠ name →
        getPoint other (updateEditablePoint name newPoint s).editablePoints =
          getPoint other s.editablePoints) ∧
      (updateEditablePoint name newPoint s).fieldProfile = s.fieldProfile ∧
      (updateEditablePoint name newPoint s).zoomLevel = s.zoomLevel ∧
      (updateEditablePoint name newPoint s).panX = s.panX ∧
      (updateEditablePoint name newPoint s).panY = s.panY ∧
      (updateEditablePoint name newPoint s).showMeasurementsOnField =
        s.showMeasurementsOnField ∧
      (updateEditablePoint name newPoint s).editMode = s.editMode := by
  refine ⟨rfl, rfl, rfl, ?_, ?_, ?_, ?_, ?_, ?_, ?_, ?_⟩
  · cases name <;> rfl
  · intro hne
    cases name <;> cases other <;> first
      | rfl
      | exact absurd rfl hne
  all_goals cases name <;> rfl

/-- Witness for C9: updating `homePathStart` on the initial state leaves
`homePathMid` unchanged. -/
theorem c9_state_store_updates_witness :
    getPoint PointName.homePathMid
        (updateEditablePoint PointName.homePathStart ⟨1, 2⟩
            createInitialState).editablePoints =
      getPoint PointName.homePathMid createInitialState.editablePoints :=
  (c9_state_store_updates createInitialState fieldProfileMen
        PointName.homePathStart PointName.homePathMid ⟨1, 2⟩).2.2.2.2.1
    (by decide)

/-- C10: `nearestPointOnLine` is total and always lands on the segment:
its result is `lineStart + t * (lineEnd - lineStart)` for some `t ∈ [0, 1]`,
and on a degenerate zero-length segment it returns `lineStart` (no division
by zero occurs: the `lengthSq = 0` case is handled first). -/
theorem c10_nearest_point_on_segment (point lineStart lineEnd : Point) :
    (∃ t : ℝ, 0 ≤ t ∧ t ≤ 1 ∧
        nearestPointOnLine point lineStart lineEnd =
          ⟨lineStart.x + t * (lineEnd.x - lineStart.x),
            lineStart.y + t * (lineEnd.y - lineStart.y)⟩) ∧
      nearestPointOnLine point lineStart lineStart = lineStart := by
  constructor
  · by_cases h :
      (lineEnd.x - lineStart.x) * (lineEnd.x - lineStart.x) +
          (lineEnd.y - lineStart.y) * (lineEnd.y - lineStart.y) = 0
    · refine ⟨0, le_refl 0, zero_le_one, ?_⟩
      simp [nearestPointOnLine, h]
    · refine ⟨max 0 (min 1
        (((point.x - lineStart.x) * (lineEnd.x - lineStart.x) +
            (point.y - lineStart.y) * (lineEnd.y - lineStart.y)) /
          ((lineEnd.x - lineStart.x) * (lineEnd.x - lineStart.x) +
            (lineEnd.y - lineStart.y) * (lineEnd.y - lineStart.y)))),
        le_max_left 0 _, max_le zero_le_one (min_le_left 1 _), ?_⟩
      simp [nearestPointOnLine, h]
  · simp [nearestPointOnLine]

/-- Length formula for `trimmedSegment`: when the two trim amounts are
non-negative and sum to at most the inter-center distance, the recorded
length is exactly that distance minus both trims. -/
theorem trimmedSegment_length_eq (f t : Point) (a b : ℝ)
    (ha : 0 ≤ a) (hb : 0 ≤ b)
    (hab : a + b ≤ Real.sqrt ((t.x - f.x) ^ 2 + (t.y - f.y) ^ 2)) :
    (trimmedSegment f t a b).length =
      Real.sqrt ((t.x - f.x) ^ 2 + (t.y - f.y) ^ 2) - a - b := by
  have hnn : (0:ℝ) ≤ (t.x - f.x) ^ 2 + (t.y - f.y) ^ 2 := by positivity
  by_cases hz : Real.sqrt ((t.x - f.x) ^ 2 + (t.y - f.y) ^ 2) = 0
  · have hsq0 : (t.x - f.x) ^ 2 + (t.y - f.y) ^ 2 = 0 := by
      have := Real.sqrt_eq_zero'.mp hz
      linarith
    have hdx : t.x - f.x = 0 := by
      nlinarith [sq_nonneg (t.x - f.x), sq_nonneg (t.y - f.y)]
    have hdy : t.y - f.y = 0 := by
      nlinarith [sq_nonneg (t.x - f.x), sq_nonneg (t.y - f.y)]
    have ha0 : a = 0 := le_antisymm (by rw [hz] at hab; linarith) ha
    have hb0 : b = 0 := le_antisymm (by rw [hz] at hab; linarith) hb
    subst ha0; subst hb0
    simp only [trimmedSegment, unitVector, distanceBetween, hz, if_pos]
    rw [show f.x + 0 * 0 - (t.x - 0 * 0) = 0 by linarith,
      show f.y + 0 * 0 - (t.y - 0 * 0) = 0 by linarith]
    norm_num
  · have hsq : Real.sqrt ((t.x - f.x) ^ 2 + (t.y - f.y) ^ 2) ^ 2 =
        (t.x - f.x) ^ 2 + (t.y - f.y) ^ 2 := Real.sq_sqrt hnn
    set L := Real.sqrt ((t.x - f.x) ^ 2 + (t.y - f.y) ^ 2) with hL
    simp only [trimmedSegment, unitVector, distanceBetween]
    rw [if_neg hz]
    have harg : (f.x + (t.x - f.x) / L * a - (t.x - (t.x - f.x) / L * b)) ^ 2 +
        (f.y + (t.y - f.y) / L * a - (t.y - (t.y - f.y) / L * b)) ^ 2 =
        (L - a - b) ^ 2 := by
      field_simp
      nlinarith [hsq]
    rw [harg, Real.sqrt_sq_eq_abs, abs_of_nonneg (by linarith)]

/-- C4: for any two centers and non-negative trims each at most half the
inter-center distance, the trimmed segment's recorded length equals
`distance(centers) - fromTrim - toTrim` (exactly, in the real model) and is
never negative. -/
theorem c4_trimmed_segment (fromCenter toCenter : Point)
    (fromTrim toTrim : ℝ) (h0a : 0 ≤ fromTrim) (h0b : 0 ≤ toTrim)
    (hha : fromTrim ≤ distanceBetween fromCenter toCenter / 2)
    (hhb : toTrim ≤ distanceBetween fromCenter toCenter / 2) :
    (trimmedSegment fromCenter toCenter fromTrim toTrim).length =
        distanceBetween fromCenter toCenter - fromTrim - toTrim ∧
      0 ≤ (trimmedSegment fromCenter toCenter fromTrim toTrim).length := by
  have hLd : distanceBetween fromCenter toCenter =
      Real.sqrt ((toCenter.x - fromCenter.x) ^ 2 +
        (toCenter.y - fromCenter.y) ^ 2) := by
    unfold distanceBetween
    congr 1
    ring
  have hab : fromTrim + toTrim ≤
      Real.sqrt ((toCenter.x - fromCenter.x) ^ 2 +
        (toCenter.y - fromCenter.y) ^ 2) := by
    rw [← hLd]; linarith
  have key := trimmedSegment_length_eq fromCenter toCenter fromTrim toTrim
    h0a h0b hab
  rw [hLd]
  exact ⟨key, by rw [key]; linarith⟩

/-- Witness for C4 at centers `(0,0)` and `(0,10)` with trims `2` and `3`:
the trimmed length evaluates to `10 - 2 - 3 = 5`. -/
theorem c4_trimmed_segment_witness :
    (trimmedSegment ⟨0, 0⟩ ⟨0, 10⟩ 2 3).length = 5 ∧
      0 ≤ (trimmedSegment ⟨0, 0⟩ ⟨0, 10⟩ 2 3).length := by
  have hd : distanceBetween ⟨0, 0⟩ ⟨0, 10⟩ = 10 := by
    unfold distanceBetween
    rw [show ((0:ℝ) - 0) ^ 2 + ((0:ℝ) - 10) ^ 2 = 10 ^ 2 by norm_num,
      Real.sqrt_sq (by norm_num)]
  have h := c4_trimmed_segment ⟨0, 0⟩ ⟨0, 10⟩ 2 3 (by norm_num) (by norm_num)
    (by rw [hd]; norm_num) (by rw [hd]; norm_num)
  rw [hd] at h
  exact ⟨by rw [h.1]; norm_num, h.2⟩

/-- Hover lookup returns `none` exactly when no hit area matches. -/
theorem findHoveredMeasurement_eq_none_iff (canvasPos : Point)
    (areas : List HitArea) (hitThreshold : ℝ) :
    findHoveredMeasurement canvasPos areas hitThreshold = none ↔
      ∀ a ∈ areas, ¬ hitsArea canvasPos hitThreshold a := by
  induction areas with
  | nil => simp [findHoveredMeasurement]
  | cons a rest ih =>
    rw [findHoveredMeasurement]
    split_ifs with h
    · simp [h]
    · simp only [List.forall_mem_cons, ih]
      tauto

/-- Hover lookup returns the first matching hit area in list order. -/
theorem findHoveredMeasurement_first (canvasPos : Point) (hitThreshold : ℝ)
    (pre : List HitArea) (area : HitArea) (post : List HitArea)
    (hpre : ∀ b ∈ pre, ¬ hitsArea canvasPos hitThreshold b)
    (hhit : hitsArea canvasPos hitThreshold area) :
    findHoveredMeasurement canvasPos (pre ++ area :: post) hitThreshold =
      some area := by
  induction pre with
  | nil => rw [List.nil_append, findHoveredMeasurement, if_pos hhit]
  | cons b pre ih =>
    rw [List.cons_append, findHoveredMeasurement,
      if_neg (hpre b (List.mem_cons_self b pre))]
    exact ih fun c hc => hpre c (List.mem_cons_of_mem b hc)

/-- C7: `findHoveredMeasurement` returns the first area in list order whose
line is strictly closer than the threshold or whose label rectangle contains
the cursor, and `none` exactly when no area satisfies either condition. -/
theorem c7_hovered_measurement (canvasPos : Point) (areas : List HitArea)
    (hitThreshold : ℝ) :
    (findHoveredMeasurement canvasPos areas hitThreshold = none ↔
        ∀ a ∈ areas, ¬ hitsArea canvasPos hitThreshold a) ∧
      ∀ pre area post, areas = pre ++ area :: post →
        (∀ b ∈ pre, ¬ hitsArea canvasPos hitThreshold b) →
        hitsArea canvasPos hitThreshold area →
        findHoveredMeasurement canvasPos areas hitThreshold = some area := by
  refine ⟨findHoveredMeasurement_eq_none_iff canvasPos areas hitThreshold, ?_⟩
  rintro pre area post rfl hpre hhit
  exact findHoveredMeasurement_first canvasPos hitThreshold pre area post
    hpre hhit

/-- Witness for C7: with one hit area (line from `(0,0)` to `(100,0)`, label
box centered at `(50,40)` of size `20 x 10`) and a 10-pixel threshold, a
cursor 3 pixels from the line hits the area and a cursor 15 pixels away
(outside the label box) hits nothing. -/
theorem c7_hovered_measurement_witness :
    findHoveredMeasurement ⟨50, 3⟩ [⟨0, 0, 100, 0, 50, 40, 20, 10⟩] 10 =
        some ⟨0, 0, 100, 0, 50, 40, 20, 10⟩ ∧
      findHoveredMeasurement ⟨50, 15⟩ [⟨0, 0, 100, 0, 50, 40, 20, 10⟩] 10 =
        none := by
  have hd3 : pointToLineDistance 50 3 0 0 100 0 = 3 := by
    unfold pointToLineDistance
    rw [if_neg (by norm_num)]
    norm_num [min_def, max_def]
    rw [show (9:ℝ) = 3 ^ 2 by norm_num, Real.sqrt_sq (by norm_num)]
  have hd15 : pointToLineDistance 50 15 0 0 100 0 = 15 := by
    unfold pointToLineDistance
    rw [if_neg (by norm_num)]
    norm_num [min_def, max_def]
    rw [show (225:ℝ) = 15 ^ 2 by norm_num, Real.sqrt_sq (by norm_num)]
  constructor
  · exact (c7_hovered_measurement ⟨50, 3⟩ [⟨0, 0, 100, 0, 50, 40, 20, 10⟩]
        10).2 [] ⟨0, 0, 100, 0, 50, 40, 20, 10⟩ [] rfl (by simp)
      (Or.inl (by rw [show ((⟨50, 3⟩ : Point)).x = 50 from rfl]; rw [hd3]; norm_num))
  · exact (c7_hovered_measurement ⟨50, 15⟩ [⟨0, 0, 100, 0, 50, 40, 20, 10⟩]
        10).1.mpr (by
      intro a ha
      rw [List.mem_singleton] at ha
      subst ha
      norm_num [hitsArea, isPointInRect, hd15])

/-- Unfolding step of the snap loop on a non-empty target list. -/
theorem findNearestSnapLoop_cons (point : Point) (threshold : ℝ)
    (t : SnapTarget) (ts : List SnapTarget) (m : ℝ) (b : Option Point) :
    findNearestSnapLoop point threshold (t :: ts) m b =
      match snapCandidate point t with
      | none => findNearestSnapLoop point threshold ts m b
      | some (sp, d) =>
          if d < effectiveThreshold threshold t ∧ d < m then
            findNearestSnapLoop point threshold ts d (some sp)
          else findNearestSnapLoop point threshold ts m b := rfl

/-- When no target beats the running minimum, the snap loop keeps its
accumulator. -/
theorem findNearestSnapLoop_no_accept (point : Point) (threshold : ℝ)
    (ts : List SnapTarget) :
    ∀ m b, (∀ t ∈ ts, ¬ acceptedBelow point threshold m t) →
      findNearestSnapLoop point threshold ts m b = b := by
  induction ts with
  | nil => intro m b _; rfl
  | cons t ts ih =>
    intro m b h
    rw [findNearestSnapLoop_cons]
    cases hc : snapCandidate point t with
    | none => exact ih m b fun u hu => h u (List.mem_cons_of_mem t hu)
    | some pd =>
      obtain ⟨sp, d⟩ := pd
      dsimp only
      have hcond : ¬ (d < effectiveThreshold threshold t ∧ d < m) := by
        rintro ⟨h1, h2⟩
        exact h t (List.mem_cons_self t ts) ⟨sp, d, hc, h1, h2⟩
      rw [if_neg hcond]
      exact ih m b fun u hu => h u (List.mem_cons_of_mem t hu)

/-- When some target beats the running minimum, the snap loop returns the
candidate of a beating target of minimal distance. -/
theorem findNearestSnapLoop_finds (point : Point) (threshold : ℝ)
    (ts : List SnapTarget) :
    ∀ m b, (∃ t ∈ ts, acceptedBelow point threshold m t) →
      ∃ t ∈ ts, ∃ sp d, snapCandidate point t = some (sp, d) ∧
        d < effectiveThreshold threshold t ∧ d < m ∧
        findNearestSnapLoop point threshold ts m b = some sp ∧
        ∀ u ∈ ts, ∀ spu du, snapCandidate point u = some (spu, du) →
          du < effectiveThreshold threshold u → du < m → d ≤ du := by
  induction ts with
  | nil => rintro m b ⟨t, ht, -⟩; exact absurd ht (List.not_mem_nil t)
  | cons t ts ih =>
    intro m b hex
    rw [findNearestSnapLoop_cons]
    cases hc : snapCandidate point t with
    | none =>
      obtain ⟨t0, ht0, hacc⟩ := hex
      have ht0' : t0 ∈ ts := by
        rcases List.mem_cons.mp ht0 with h | h
        · obtain ⟨sp0, d0, hc0, -, -⟩ := hacc
          rw [h, hc] at hc0
          exact absurd hc0 (by simp)
        · exact h
      obtain ⟨t', ht', sp', d', hc', he', hm', hres, hall⟩ :=
        ih m b ⟨t0, ht0', hacc⟩
      refine ⟨t', List.mem_cons_of_mem t ht', sp', d', hc', he', hm', hres, ?_⟩
      intro u hu spu du hcu heu hmu
      rcases List.mem_cons.mp hu with h | h
      · rw [h, hc] at hcu
        exact absurd hcu (by simp)
      · exact hall u h spu du hcu heu hmu
    | some pd =>
      obtain ⟨sp, d⟩ := pd
      dsimp only
      by_cases hcond : d < effectiveThreshold threshold t ∧ d < m
      · rw [if_pos hcond]
        by_cases hex2 : ∃ u ∈ ts, acceptedBelow point threshold d u
        · obtain ⟨t', ht', sp', d', hc', he', hm', hres, hall⟩ :=
            ih d (some sp) hex2
          refine ⟨t', List.mem_cons_of_mem t ht', sp', d', hc', he',
            lt_trans hm' hcond.2, hres, ?_⟩
          intro u hu spu du hcu heu hmu
          rcases List.mem_cons.mp hu with h | h
          · subst h
            rw [hc] at hcu
            simp only [Option.some.injEq, Prod.mk.injEq] at hcu
            obtain ⟨-, h2⟩ := hcu
            rw [← h2]
            exact le_of_lt hm'
          · by_cases hdu : du < d
            · exact hall u h spu du hcu heu hdu
            · exact le_trans (le_of_lt hm') (not_lt.mp hdu)
        · push_neg at hex2
          have hres := findNearestSnapLoop_no_accept point threshold ts d
            (some sp) hex2
          refine ⟨t, List.mem_cons_self t ts, sp, d, hc, hcond.1, hcond.2,
            hres, ?_⟩
          intro u hu spu du hcu heu hmu
          rcases List.mem_cons.mp hu with h | h
          · subst h
            rw [hc] at hcu
            simp only [Option.some.injEq, Prod.mk.injEq] at hcu
            obtain ⟨-, h2⟩ := hcu
            rw [← h2]
          · by_contra hlt
            push_neg at hlt
            exact hex2 u h ⟨spu, du, hcu, heu, hlt⟩
      · rw [if_neg hcond]
        obtain ⟨t0, ht0, hacc⟩ := hex
        have ht0' : t0 ∈ ts := by
          rcases List.mem_cons.mp ht0 with h | h
          · exfalso
            obtain ⟨sp0, d0, hc0, he0, hm0⟩ := hacc
            subst h
            rw [hc] at hc0
            simp only [Option.some.injEq, Prod.mk.injEq] at hc0
            obtain ⟨-, h2⟩ := hc0
            exact hcond ⟨by rw [h2]; exact he0, by rw [h2]; exact hm0⟩
          · exact h
        obtain ⟨t', ht', sp', d', hc', he', hm', hres, hall⟩ :=
          ih m b ⟨t0, ht0', hacc⟩
        refine ⟨t', List.mem_cons_of_mem t ht', sp', d', hc', he', hm',
          hres, ?_⟩
        intro u hu spu du hcu heu hmu
        rcases List.mem_cons.mp hu with h | h
        · exfalso
          subst h
          rw [hc] at hcu
          simp only [Option.some.injEq, Prod.mk.injEq] at hcu
          obtain ⟨-, h2⟩ := hcu
          exact hcond ⟨by rw [h2]; exact heu, by rw [h2]; exact hmu⟩
        · exact hall u h spu du hcu heu hmu

/-- C6 (amended): `findNearestSnap` returns `null` exactly when no target
is accepted — accepted meaning its candidate distance is below BOTH the
target's per-type effective threshold and the input `threshold` (which seeds
the running minimum) — and otherwise returns the candidate point of an
accepted target of minimal distance; in particular a single point-type
target at distance strictly below `threshold` is returned and one strictly
above `threshold` yields `null`. -/
theorem c6_snap_threshold (point : Point) (targets : List SnapTarget)
    (threshold : ℝ) :
    (findNearestSnap point targets threshold = none ↔
        ∀ t ∈ targets, ¬ acceptedBelow point threshold threshold t) ∧
      ((∃ t ∈ targets, acceptedBelow point threshold threshold t) →
        ∃ t ∈ targets, ∃ sp d, snapCandidate point t = some (sp, d) ∧
          d < effectiveThreshold threshold t ∧ d < threshold ∧
          findNearestSnap point targets threshold = some sp ∧
          ∀ u ∈ targets, ∀ spu du, snapCandidate point u = some (spu, du) →
            du < effectiveThreshold threshold u → du < threshold → d ≤ du) ∧
      (∀ q : Point, distanceBetween point q < threshold →
        findNearestSnap point [SnapTarget.point q] threshold = some q) ∧
      (∀ q : Point, threshold < distanceBetween point q →
        findNearestSnap point [SnapTarget.point q] threshold = none) := by
  refine ⟨⟨?_, ?_⟩, ?_, ?_, ?_⟩
  · intro hnone
    by_contra hneg
    push_neg at hneg
    obtain ⟨t', -, sp', d', -, -, -, hres, -⟩ :=
      findNearestSnapLoop_finds point threshold targets threshold none hneg
    rw [findNearestSnap] at hnone
    rw [hnone] at hres
    exact Option.noConfusion hres
  · intro h
    rw [findNearestSnap]
    exact findNearestSnapLoop_no_accept point threshold targets threshold
      none h
  · intro hex
    obtain ⟨t, ht, sp, d, hc, he, hm, hres, hall⟩ :=
      findNearestSnapLoop_finds point threshold targets threshold none hex
    exact ⟨t, ht, sp, d, hc, he, hm, by rw [findNearestSnap]; exact hres,
      hall⟩
  · intro q hq
    rw [findNearestSnap, findNearestSnapLoop_cons]
    dsimp only [snapCandidate, effectiveThreshold]
    rw [if_pos ⟨hq, hq⟩]
    rfl
  · intro q hq
    rw [findNearestSnap, findNearestSnapLoop_cons]
    dsimp only [snapCandidate, effectiveThreshold]
    rw [if_neg (by rintro ⟨-, h2⟩; exact absurd h2 (not_lt.mpr (le_of_lt hq)))]
    rfl

/-- Witness for C6: a single point target at distance `1 < 2` is snapped to. -/
theorem c6_snap_threshold_witness :
    findNearestSnap ⟨0, 0⟩ [SnapTarget.point ⟨1, 0⟩] 2 = some ⟨1, 0⟩ :=
  (c6_snap_threshold ⟨0, 0⟩ [SnapTarget.point ⟨1, 0⟩] 2).2.2.1 ⟨1, 0⟩ (by
    unfold distanceBetween
    rw [show ((0:ℝ) - 1) ^ 2 + ((0:ℝ) - 0) ^ 2 = 1 by norm_num,
      Real.sqrt_one]
    norm_num)

/-- Counterexample for C6 as stated: with `threshold = 1`, a lone line
target whose clamped projection lies at distance `1.5` is *within its
effective threshold* (`1.5 < 2.0`), yet `findNearestSnap` returns `null`,
because the running minimum is seeded with `threshold = 1`. -/
theorem c6_counterexample :
    distanceBetween ⟨0, 1.5⟩ (nearestPointOnLine ⟨0, 1.5⟩ ⟨0, 0⟩ ⟨4, 0⟩) <
        effectiveThreshold 1 (SnapTarget.line ⟨⟨0, 0⟩, ⟨4, 0⟩⟩) ∧
      findNearestSnap ⟨0, 1.5⟩ [SnapTarget.line ⟨⟨0, 0⟩, ⟨4, 0⟩⟩] 1 = none := by
  have hproj : nearestPointOnLine ⟨0, 1.5⟩ ⟨0, 0⟩ ⟨4, 0⟩ = (⟨0, 0⟩ : Point) := by
    unfold nearestPointOnLine
    rw [if_neg (by norm_num)]
    ext <;> norm_num [min_def, max_def]
  have hdist : distanceBetween ⟨0, 1.5⟩ (⟨0, 0⟩ : Point) = 1.5 := by
    unfold distanceBetween
    rw [show ((0:ℝ) - 0) ^ 2 + ((1.5:ℝ) - 0) ^ 2 = 1.5 ^ 2 by norm_num,
      Real.sqrt_sq (by norm_num)]
  have hcand : snapCandidate ⟨0, 1.5⟩ (SnapTarget.line ⟨⟨0, 0⟩, ⟨4, 0⟩⟩) =
      some (⟨0, 0⟩, 1.5) := by
    unfold snapCandidate
    dsimp only
    rw [hproj, hdist]
  refine ⟨by rw [hproj, hdist]; norm_num [effectiveThreshold], ?_⟩
  rw [findNearestSnap, findNearestSnapLoop_cons, hcand]
  dsimp only
  rw [if_neg (by rintro ⟨-, h2⟩; norm_num at h2)]
  rfl

/-- C2 (code evaluation at the failing input): a lone line target from
`(0,0)` to `(10,0)` and dragged point `(0,1)` with the default threshold
`0.4`; the clamped projection `(0,0)` lies at distance `1 < 2.0` (the line
effective threshold), yet `findNearestSnap` returns `null` rather than the
projection, because the acceptance guard also requires the distance to be
below the running minimum seeded with `threshold = 0.4`. -/
theorem c2_line_tolerance_code_eval :
    distanceBetween ⟨0, 1⟩ (nearestPointOnLine ⟨0, 1⟩ ⟨0, 0⟩ ⟨10, 0⟩) <
        effectiveThreshold 0.4 (SnapTarget.line ⟨⟨0, 0⟩, ⟨10, 0⟩⟩) ∧
      findNearestSnap ⟨0, 1⟩ [SnapTarget.line ⟨⟨0, 0⟩, ⟨10, 0⟩⟩] 0.4 =
        none := by
  have hproj : nearestPointOnLine ⟨0, 1⟩ ⟨0, 0⟩ ⟨10, 0⟩ = (⟨0, 0⟩ : Point) := by
    unfold nearestPointOnLine
    rw [if_neg (by norm_num)]
    ext <;> norm_num [min_def, max_def]
  have hdist : distanceBetween ⟨0, 1⟩ (⟨0, 0⟩ : Point) = 1 := by
    unfold distanceBetween
    rw [show ((0:ℝ) - 0) ^ 2 + ((1:ℝ) - 0) ^ 2 = 1 by norm_num,
      Real.sqrt_one]
  have hcand : snapCandidate ⟨0, 1⟩ (SnapTarget.line ⟨⟨0, 0⟩, ⟨10, 0⟩⟩) =
      some (⟨0, 0⟩, 1) := by
    unfold snapCandidate
    dsimp only
    rw [hproj, hdist]
  refine ⟨by rw [hproj, hdist]; norm_num [effectiveThreshold], ?_⟩
  rw [findNearestSnap, findNearestSnapLoop_cons, hcand]
  dsimp only
  rw [if_neg (by rintro ⟨-, h2⟩; norm_num at h2)]
  rfl

/-- C5 (amended): initialization of the editable points is per-slot: each
editable point that is `null` is initialized from the corresponding corner
of the original home path (`originalHomePathFirstLine.start`, its end, and
`originalHomePathSecondLine.end` respectively), while each non-`null`
editable point is kept exactly as supplied. -/
theorem c5_editable_point_initialization (fieldProfile : FieldProfile)
    (editablePoints : EditablePoints) (scale : ℝ) :
    (editablePoints.homePathStart = none →
        (calculateGeometry fieldProfile editablePoints
              scale).initializedEditablePoints.homePathStart =
          (calculateGeometry fieldProfile editablePoints
              scale).originalHomePathFirstLine.start) ∧
      (editablePoints.homePathMid = none →
        (calculateGeometry fieldProfile editablePoints
              scale).initializedEditablePoints.homePathMid =
          (calculateGeometry fieldProfile editablePoints
              scale).originalHomePathFirstLine.endp) ∧
      (editablePoints.homePathEnd = none →
        (calculateGeometry fieldProfile editablePoints
              scale).initializedEditablePoints.homePathEnd =
          (calculateGeometry fieldProfile editablePoints
              scale).originalHomePathSecondLine.endp) ∧
      (∀ q : Point, editablePoints.homePathStart = some q →
        (calculateGeometry fieldProfile editablePoints
            scale).initializedEditablePoints.homePathStart = q) ∧
      (∀ q : Point, editablePoints.homePathMid = some q →
        (calculateGeometry fieldProfile editablePoints
            scale).initializedEditablePoints.homePathMid = q) ∧
      (∀ q : Point, editablePoints.homePathEnd = some q →
        (calculateGeometry fieldProfile editablePoints
            scale).initializedEditablePoints.homePathEnd = q) := by
  refine ⟨?_, ?_, ?_, ?_, ?_, ?_⟩
  · intro h; simp [calculateGeometry, h]
  · intro h; simp [calculateGeometry, h]
  · intro h; simp [calculateGeometry, h]
  · intro q h; simp [calculateGeometry, h]
  · intro q h; simp [calculateGeometry, h]
  · intro q h; simp [calculateGeometry, h]

/-- Witness for C5: with `homePathStart` null (and `homePathMid` edited),
the start point is initialized from the original first line's start. -/
theorem c5_editable_point_initialization_witness :
    (calculateGeometry fieldProfileWomen ⟨none, some ⟨1, 1⟩, none⟩
          1).initializedEditablePoints.homePathStart =
      (calculateGeometry fieldProfileWomen ⟨none, some ⟨1, 1⟩, none⟩
          1).originalHomePathFirstLine.start :=
  (c5_editable_point_initialization fieldProfileWomen
    ⟨none, some ⟨1, 1⟩, none⟩ 1).1 rfl

/-- Counterexample for C5 as stated: on the synthetic profile with
`homePathStart` and `homePathEnd` null but `homePathMid` edited to `(1, 1)`,
the initialized points do NOT all equal the original home path's corner
points — the middle slot keeps the edited value (`x = 1`) while the
original corner has `x = 0`. -/
theorem c5_counterexample :
    ¬ ((calculateGeometry testProfile ⟨none, some ⟨1, 1⟩, none⟩
            1).initializedEditablePoints.homePathStart =
          (calculateGeometry testProfile ⟨none, some ⟨1, 1⟩, none⟩
              1).originalHomePathFirstLine.start ∧
        (calculateGeometry testProfile ⟨none, some ⟨1, 1⟩, none⟩
            1).initializedEditablePoints.homePathMid =
          (calculateGeometry testProfile ⟨none, some ⟨1, 1⟩, none⟩
              1).originalHomePathFirstLine.endp ∧
        (calculateGeometry testProfile ⟨none, some ⟨1, 1⟩, none⟩
            1).initializedEditablePoints.homePathEnd =
          (calculateGeometry testProfile ⟨none, some ⟨1, 1⟩, none⟩
              1).originalHomePathSecondLine.endp) := by
  rintro ⟨-, h2, -⟩
  have hx := congrArg Point.x h2
  simp [calculateGeometry, testProfile, direction, intersectionWithHomeLine,
    Real.sin_zero, Real.cos_zero] at hx

end

end Pesiskulma
